import Mathlib

/-!
Shallow embedding of the download-form controller in `src/App.tsx` of the
online-media-downloader repository: the view-state machine, client-side URL
validation, platform detection, and the single request/response cycle.

Browser primitives (`new URL`, `fetch`, JSON parsing) are modelled as
environment inputs: the handler only observes their outcomes, which we pass
explicitly.
-/

namespace MediaDL

/-- The four view states, `type AppStatus` in App.tsx line 5. -/
inductive AppStatus where
  | idle
  | loading
  | success
  | error
deriving Repr, DecidableEq

/-- A parsed JSON response body, projected onto the five fields the client
reads.  The TypeScript `DownloadResult` interface (App.tsx lines 7-12) is not
enforced at runtime, so every field may be absent; `detail` is the field read
on the error path. -/
structure JsonBody where
  status : Option String
  message : Option String
  filename : Option String
  download_url : Option String
  detail : Option String
deriving Repr, DecidableEq

/-- The reactive session state: the four signals created in App.tsx
lines 36-39 (`url`, `status`, `result`, `errorMsg`). -/
structure AppState where
  url : String
  status : AppStatus
  result : Option JsonBody
  errorMsg : String
deriving Repr, DecidableEq

/-- Outcome of a successful `new URL(trimmed)` call, restricted to the one
property the handler reads: `protocol`, the lowercased scheme followed by a
colon (for example "https:" or "ftp:"). -/
structure ParsedURL where
  protocol : String
deriving Repr, DecidableEq

/-- A thrown JavaScript value as the `catch` block on App.tsx lines 99-103
discriminates it: either an `Error` instance carrying a `message`, or any
other thrown value. -/
inductive JSError where
  | error (message : String)
  | other
deriving Repr, DecidableEq

/-- Outcome of reading the response body as JSON (`res.json()`): it either
rejects with a thrown value or resolves to a parsed object. -/
inductive BodyParse where
  | fail (err : JSError)
  | ok (body : JsonBody)
deriving Repr, DecidableEq

/-- Outcome of the `fetch` call on App.tsx lines 85-89: either the promise
rejects (network-level failure, no response) or a response arrives with an
HTTP status code and a body. -/
inductive FetchOutcome where
  | networkFailure (err : JSError)
  | response (httpStatus : Nat) (body : BodyParse)
deriving Repr, DecidableEq

/-- What `err instanceof Error ? err.message : 'Unknown error occurred'`
computes on App.tsx line 100. -/
def jsErrMessage : JSError → String
  | .error m => m
  | .other => "Unknown error occurred"

/-- The message set when `new URL` throws, App.tsx line 75. -/
def invalidUrlMsg : String := "Invalid URL. Please enter a valid http or https URL."

/-- The message set for a disallowed scheme, App.tsx line 70. -/
def schemeMsg (protocol : String) : String :=
  "Unsupported URL scheme \"" ++ protocol ++ "\". Only http and https are allowed."

/-- The fallback message for a non-2xx response without an extractable
`detail`, App.tsx line 93. -/
def serverErrorMsg (code : Nat) : String := "Server error " ++ toString code

-- ── Platform detection (App.tsx lines 20-31) ─────────────────────────────────

/-- Characters of a string, ASCII-lowercased, to model the `/i` regex flag. -/
def lowerChars (s : String) : List Char := s.data.map Char.toLower

/-- `leadsWith s p` holds when `p` is an initial segment of `s`. -/
def leadsWith : List Char → List Char → Bool
  | _, [] => true
  | [], _ :: _ => false
  | c :: cs, p :: ps => c == p && leadsWith cs ps

/-- `hasSub p s` holds when `p` occurs contiguously somewhere inside `s`. -/
def hasSub (pat : List Char) : List Char → Bool
  | [] => leadsWith [] pat
  | c :: cs => leadsWith (c :: cs) pat || hasSub pat cs

/-- Case-insensitive unanchored substring test: what a regex such as
`/youtube\.com/i` (literal characters only) computes. -/
def containsCI (s pat : String) : Bool := hasSub (lowerChars pat) (lowerChars s)

/-- Case-insensitive anchored prefix test: what `/^https?:\/\//i` computes,
split over its two alternatives. -/
def startsWithCI (s pat : String) : Bool := leadsWith (lowerChars s) (lowerChars pat)

/-- Matcher of the YouTube entry: `/youtube\.com|youtu\.be/i`. -/
def youtubeTest (u : String) : Bool := containsCI u "youtube.com" || containsCI u "youtu.be"

/-- Matcher of the Instagram entry: `/instagram\.com/i`. -/
def instagramTest (u : String) : Bool := containsCI u "instagram.com"

/-- Matcher of the TikTok entry: `/tiktok\.com/i`. -/
def tiktokTest (u : String) : Bool := containsCI u "tiktok.com"

/-- Matcher of the Facebook entry: `/facebook\.com|fb\.watch/i`. -/
def facebookTest (u : String) : Bool := containsCI u "facebook.com" || containsCI u "fb.watch"

/-- Matcher of the Generic entry: `/^https?:\/\//i`. -/
def genericTest (u : String) : Bool := startsWithCI u "http://" || startsWithCI u "https://"

/-- The ordered signature list `PLATFORMS`, App.tsx lines 20-26. -/
def PLATFORMS : List (String × (String → Bool)) :=
  [("YouTube", youtubeTest),
   ("Instagram", instagramTest),
   ("TikTok", tiktokTest),
   ("Facebook", facebookTest),
   ("Generic", genericTest)]

/-- `detectPlatform`, App.tsx lines 28-31: the name of the first entry whose
matcher accepts the input, if any. -/
def detectPlatform (url : String) : Option String :=
  (PLATFORMS.find? (fun p => p.2 url)).map (fun p => p.1)

/-- The derived chip signal `platform`, App.tsx line 58:
`url() ? detectPlatform(url()) : null` (the empty string is falsy). -/
def platformChip (st : AppState) : Option String :=
  if st.url = "" then none else detectPlatform st.url

-- ── The submission handler (App.tsx lines 61-104) ────────────────────────────

/-- The characters JavaScript's `String.prototype.trim` removes: the
WhiteSpace and LineTerminator productions of the ECMAScript grammar. -/
def isJsSpace (c : Char) : Bool :=
  c == ' ' || c == '\t' || c == '\n' || c == '\u000b' || c == '\u000c' || c == '\r' ||
  c == '\u00a0' || c == '\ufeff' || c == '\u1680' ||
  (('\u2000' ≤ c) && (c ≤ '\u200a')) ||
  c == '\u2028' || c == '\u2029' || c == '\u202f' || c == '\u205f' || c == '\u3000'

/-- Remove every leading JS-whitespace character. -/
def dropLeadingSpace : List Char → List Char
  | [] => []
  | c :: cs => if isJsSpace c then dropLeadingSpace cs else c :: cs

/-- JavaScript's `String.prototype.trim`: strip leading and trailing
whitespace, as called on App.tsx line 63. -/
def jsTrim (s : String) : String :=
  ⟨(dropLeadingSpace (dropLeadingSpace s.data).reverse).reverse⟩

/-- Result of the synchronous part of `handleDownload`, up to and including
the decision whether to issue the fetch: an early return on empty input, a
local validation failure with the new state, or entry into `loading` together
with the trimmed URL that is sent as the request body. -/
inductive StartOutcome where
  | noop
  | fail (st : AppState)
  | fetch (st : AppState) (requestedUrl : String)
deriving Repr, DecidableEq

/-- The synchronous prefix of `handleDownload` (App.tsx lines 63-82):
trim the input, return silently when empty, reject a failed parse or a
non-http(s) scheme, otherwise clear `result` and `errorMsg`, enter `loading`
and issue the request.  `parse` is the environment's outcome of
`new URL(trimmed)`. -/
def submitStart (st : AppState) (parse : Option ParsedURL) : StartOutcome :=
  let trimmed := jsTrim st.url
  if trimmed = "" then .noop
  else
    match parse with
    | some p =>
      if p.protocol ≠ "http:" ∧ p.protocol ≠ "https:" then
        .fail { st with status := .error, errorMsg := schemeMsg p.protocol }
      else
        .fetch { st with status := .loading, result := none, errorMsg := "" } trimmed
    | none => .fail { st with status := .error, errorMsg := invalidUrlMsg }

/-- The continuation of `handleDownload` after the `fetch` promise settles
(App.tsx lines 84-103), applied to the state in force at that point.
A non-ok response (`res.ok` is status 200-299) reads `detail` from the body,
swallowing a body-parse failure via `.catch(() => ({}))`, and throws an
`Error` whose message lands in `errorMsg`; an ok response stores the parsed
body verbatim; a rejection propagates to the catch block, which stores
`err.message` for `Error` instances and the fixed fallback otherwise. -/
def resolveFetch (st : AppState) (outcome : FetchOutcome) : AppState :=
  match outcome with
  | .networkFailure err => { st with status := .error, errorMsg := jsErrMessage err }
  | .response code body =>
    if 200 ≤ code ∧ code ≤ 299 then
      match body with
      | .ok b => { st with status := .success, result := some b }
      | .fail err => { st with status := .error, errorMsg := jsErrMessage err }
    else
      match body with
      | .ok b =>
        { st with status := .error,
                  errorMsg := match b.detail with
                              | some d => d
                              | none => serverErrorMsg code }
      | .fail _ => { st with status := .error, errorMsg := serverErrorMsg code }

/-- One whole run of `handleDownload` for a given environment: the final
state, paired with the list of request bodies sent (each element is the `url`
field of the JSON body of one POST to `{API_BASE}/api/download`). -/
def handleDownload (st : AppState) (parse : Option ParsedURL) (outcome : FetchOutcome) :
    AppState × List String :=
  match submitStart st parse with
  | .noop => (st, [])
  | .fail st2 => (st2, [])
  | .fetch st2 req => (resolveFetch st2 outcome, [req])

/-- The sequence of states a run of `handleDownload` passes through, starting
from the state at submit time and recording the state after each batch of
signal writes. -/
def submitTrace (st : AppState) (parse : Option ParsedURL) (outcome : FetchOutcome) :
    List AppState :=
  match submitStart st parse with
  | .noop => [st]
  | .fail st2 => [st, st2]
  | .fetch st2 _ => [st, st2, resolveFetch st2 outcome]

/-- The `reset` handler, App.tsx lines 106-111. -/
def reset (st : AppState) : AppState :=
  let _ := st
  { url := "", status := .idle, result := none, errorMsg := "" }

-- ── Rendering of the success card (App.tsx lines 282-337) ────────────────────

/-- JavaScript template-literal coercion of a possibly-absent string field:
an absent field renders as "undefined". -/
def jsStr : Option String → String
  | some s => s
  | none => "undefined"

/-- The `href` of the save link, App.tsx line 314:
the API base concatenated with the body's `download_url`. -/
def downloadHref (apiBase : String) (r : JsonBody) : String :=
  apiBase ++ jsStr r.download_url

/-- The `download` attribute (suggested save name) of the save link,
App.tsx line 315: the body's `filename`. -/
def downloadName (r : JsonBody) : String := jsStr r.filename

-- ── The event-level machine (reachable session states) ───────────────────────

/-- A machine configuration: the session state plus the bodies of the
requests currently in flight (issued but not yet resolved). -/
structure Config where
  state : AppState
  pending : List String
deriving Repr, DecidableEq

/-- The discrete events the component reacts to: a keystroke replacing the
input (the field is disabled while loading, App.tsx line 207), a form submit
(the submit button is disabled while loading, App.tsx line 241), the arrival
of the outcome of an in-flight request, and a click on one of the reset
buttons (rendered only in the success and error views, App.tsx lines 326-333
and 366-373). -/
inductive Event where
  | input (s : String)
  | submit (parse : Option ParsedURL)
  | respond (outcome : FetchOutcome)
  | reset
deriving Repr, DecidableEq

/-- One reaction step: `none` when the UI makes the event impossible in the
given configuration. -/
def stepFn (c : Config) (e : Event) : Option Config :=
  match e with
  | .input s =>
    if c.state.status = .loading then none
    else some ⟨{ c.state with url := s }, c.pending⟩
  | .submit parse =>
    if c.state.status = .loading then none
    else
      match submitStart c.state parse with
      | .noop => some ⟨c.state, c.pending⟩
      | .fail st2 => some ⟨st2, c.pending⟩
      | .fetch st2 req => some ⟨st2, c.pending ++ [req]⟩
  | .respond outcome =>
    match c.pending with
    | [] => none
    | _ :: rest => some ⟨resolveFetch c.state outcome, rest⟩
  | .reset =>
    if c.state.status = .success ∨ c.state.status = .error
    then some ⟨reset c.state, c.pending⟩
    else none

/-- The initial configuration: all four signals at their creation values,
no request in flight. -/
def initConfig : Config := ⟨⟨"", .idle, none, ""⟩, []⟩

/-- Reachability of a configuration from startup through any sequence of
events. -/
inductive Reach : Config → Prop where
  | init : Reach initConfig
  | step {c c2 : Config} (e : Event) : Reach c → stepFn c e = some c2 → Reach c2

-- ── Invariants of the machine ────────────────────────────────────────────────

/-- Every run of `submitStart` is a silent no-op, a validation failure that
rewrites only `status` and `errorMsg`, or entry into `loading` with `result`
and `errorMsg` cleared and the trimmed URL as request body. -/
theorem submitStart_shape (st : AppState) (parse : Option ParsedURL) :
    submitStart st parse = .noop ∨
    (∃ msg, submitStart st parse = .fail { st with status := .error, errorMsg := msg }) ∨
    submitStart st parse =
      .fetch { st with status := .loading, result := none, errorMsg := "" } (jsTrim st.url) := by
  unfold submitStart
  by_cases h : jsTrim st.url = ""
  · simp [h]
  · simp only [h, if_false]
    cases parse with
    | none => exact Or.inr (Or.inl ⟨invalidUrlMsg, rfl⟩)
    | some p =>
      by_cases hp : p.protocol ≠ "http:" ∧ p.protocol ≠ "https:"
      · exact Or.inr (Or.inl ⟨schemeMsg p.protocol, by simp [hp]⟩)
      · exact Or.inr (Or.inr (by simp [hp]))

/-- Every run of `resolveFetch` either succeeds, storing a body and touching
nothing else, or fails, rewriting only `status` and `errorMsg`. -/
theorem resolveFetch_shape (st : AppState) (o : FetchOutcome) :
    (∃ b, resolveFetch st o = { st with status := .success, result := some b }) ∨
    (∃ m, resolveFetch st o = { st with status := .error, errorMsg := m }) := by
  unfold resolveFetch
  cases o with
  | networkFailure err => exact Or.inr ⟨jsErrMessage err, rfl⟩
  | response code body =>
    by_cases h : 200 ≤ code ∧ code ≤ 299
    · cases body with
      | ok b => exact Or.inl ⟨b, by simp [h]⟩
      | fail err => exact Or.inr ⟨jsErrMessage err, by simp [h]⟩
    · cases body with
      | ok b =>
        exact Or.inr ⟨match b.detail with | some d => d | none => serverErrorMsg code,
          by simp [h]⟩
      | fail err => exact Or.inr ⟨serverErrorMsg code, by simp [h]⟩

/-- The inductive invariant of the machine: the number of in-flight requests
is one exactly in `loading` and zero otherwise, a non-empty error message
only occurs in the `error` state, and the `loading` state always has both
`result` and `errorMsg` cleared. -/
def Inv (c : Config) : Prop :=
  c.pending.length = (if c.state.status = .loading then 1 else 0) ∧
  (c.state.errorMsg ≠ "" → c.state.status = .error) ∧
  (c.state.status = .loading → c.state.result = none ∧ c.state.errorMsg = "")

/-- The invariant holds in every reachable configuration. -/
theorem reach_inv {c : Config} (h : Reach c) : Inv c := by
  induction h with
  | init => simp [Inv, initConfig]
  | @step c0 c2 e hr hs ih =>
    obtain ⟨ihLen, ihErr, ihLoad⟩ := ih
    cases e with
    | input s =>
      simp only [stepFn] at hs
      split at hs
      · exact absurd hs (by simp)
      · cases hs
        exact ⟨ihLen, ihErr, ihLoad⟩
    | submit parse =>
      simp only [stepFn] at hs
      split at hs
      · exact absurd hs (by simp)
      · rename_i hnl
        rcases submitStart_shape c0.state parse with hss | ⟨msg, hss⟩ | hss <;>
          rw [hss] at hs <;> simp only [] at hs <;> cases hs
        · exact ⟨ihLen, ihErr, ihLoad⟩
        · exact ⟨by simpa [hnl] using ihLen, fun _ => rfl, by simp⟩
        · refine ⟨?_, by simp, fun _ => ⟨rfl, rfl⟩⟩
          simp only [List.length_append, List.length_cons, List.length_nil]
          simpa [hnl] using ihLen
    | respond outcome =>
      simp only [stepFn] at hs
      split at hs
      · exact absurd hs (by simp)
      · rename_i x rest hp
        cases hs
        have hload : c0.state.status = .loading := by
          by_contra hnl
          rw [hp] at ihLen
          simp [hnl] at ihLen
        have hrest : rest = [] := by
          rw [hp, hload] at ihLen
          simpa using ihLen
        obtain ⟨hres, herr⟩ := ihLoad hload
        subst hrest
        rcases resolveFetch_shape c0.state outcome with ⟨b, hrf⟩ | ⟨m, hrf⟩
        · exact ⟨by simp [hrf], by simp [hrf, herr], by simp [hrf]⟩
        · exact ⟨by simp [hrf], fun _ => by simp [hrf], by simp [hrf]⟩
    | reset =>
      simp only [stepFn] at hs
      split at hs
      · rename_i hse
        cases hs
        have hnl : ¬c0.state.status = .loading := by
          rcases hse with h | h <;> simp [h]
        have hlen : c0.pending.length = 0 := by simpa [hnl] using ihLen
        simp [Inv, reset, List.length_eq_zero.mp hlen]
      · exact absurd hs (by simp)

/-- First-match evaluation of the signature list, spelled out as a cascade of
the five matchers in their fixed order. -/
theorem detect_chain (u : String) :
    detectPlatform u =
      (if youtubeTest u then some "YouTube"
       else if instagramTest u then some "Instagram"
       else if tiktokTest u then some "TikTok"
       else if facebookTest u then some "Facebook"
       else if genericTest u then some "Generic"
       else none) := by
  simp only [detectPlatform, PLATFORMS, List.find?]
  cases hyt : youtubeTest u <;> cases hig : instagramTest u <;>
    cases htt : tiktokTest u <;> cases hfb : facebookTest u <;>
    cases hg : genericTest u <;> simp [hyt, hig, htt, hfb, hg]

/-- A non-empty trimmed input whose parse yields an http or https protocol
always reaches the fetch: `loading` is entered with `result` and `errorMsg`
cleared and the trimmed URL is sent. -/
theorem submitStart_valid (st : AppState) (p : ParsedURL)
    (hne : ¬jsTrim st.url = "") (hp : p.protocol = "http:" ∨ p.protocol = "https:") :
    submitStart st (some p) =
      .fetch ⟨st.url, .loading, none, ""⟩ (jsTrim st.url) := by
  have hcond : ¬(p.protocol ≠ "http:" ∧ p.protocol ≠ "https:") := by tauto
  unfold submitStart
  simp [hne, hcond]

/-- A validated submission runs the whole request cycle: the final state is
the resolution of the fetch outcome from the cleared `loading` state, and
exactly one request carrying the trimmed URL is issued. -/
theorem handleDownload_valid (st : AppState) (p : ParsedURL) (o : FetchOutcome)
    (hne : ¬jsTrim st.url = "") (hp : p.protocol = "http:" ∨ p.protocol = "https:") :
    handleDownload st (some p) o =
      (resolveFetch ⟨st.url, .loading, none, ""⟩ o, [jsTrim st.url]) := by
  unfold handleDownload
  rw [submitStart_valid st p hne hp]

-- ── Claims ───────────────────────────────────────────────────────────────────

/-- A demonstration success payload, as in the spec's mocked-API scenario. -/
def demoBody : JsonBody :=
  ⟨some "ok", some "done", some "video.mp4", some "/files/video.mp4", none⟩

/-- The configuration reached by submitting a valid URL, receiving a 2xx
response, editing the input to `ftp://x` and submitting again: the local
validation failure sets `errorMsg` without clearing the stale `result`. -/
def staleResultConfig : Config :=
  ⟨⟨"ftp://x", .error, some demoBody, schemeMsg "ftp:"⟩, []⟩

/-- C1: the claimed invariant is false: the configuration `staleResultConfig`
is reachable (idle, submit `https://a`, 200 response, edit to `ftp://x`,
submit), yet its `errorMessage` is non-empty while `result` is still
present. -/
theorem C1_counterexample :
    Reach staleResultConfig ∧
    staleResultConfig.state.errorMsg ≠ "" ∧
    staleResultConfig.state.result.isSome = true := by
  refine ⟨?_, by decide, rfl⟩
  have h1 : Reach ⟨⟨"https://a", .idle, none, ""⟩, []⟩ :=
    Reach.step (.input "https://a") Reach.init (by decide)
  have h2 : Reach ⟨⟨"https://a", .loading, none, ""⟩, ["https://a"]⟩ :=
    Reach.step (.submit (some ⟨"https:"⟩)) h1 (by decide)
  have h3 : Reach ⟨⟨"https://a", .success, some demoBody, ""⟩, []⟩ :=
    Reach.step (.respond (.response 200 (.ok demoBody))) h2 (by decide)
  have h4 : Reach ⟨⟨"ftp://x", .success, some demoBody, ""⟩, []⟩ :=
    Reach.step (.input "ftp://x") h3 (by decide)
  exact Reach.step (.submit (some ⟨"ftp:"⟩)) h4 (by decide)

/-- C1 (amended): in every reachable configuration a non-empty `errorMessage`
implies `status = error`, and every `loading` state has both `result` and
`errorMessage` cleared (so transitioning to `loading` clears both); the
original never-both-populated invariant fails because a local validation
failure does not clear a stale `result`. -/
theorem C1_amended {c : Config} (h : Reach c) :
    (c.state.errorMsg ≠ "" → c.state.status = .error) ∧
    (c.state.status = .loading → c.state.result = none ∧ c.state.errorMsg = "") := by
  obtain ⟨-, h2, h3⟩ := reach_inv h
  exact ⟨h2, h3⟩

/-- C1 witness: the amended theorem applied to a concrete reachable error
configuration. -/
theorem C1_amended_witness :
    (⟨⟨"x", .error, none, invalidUrlMsg⟩, []⟩ : Config).state.status = .error := by
  have h1 : Reach ⟨⟨"x", .idle, none, ""⟩, []⟩ :=
    Reach.step (.input "x") Reach.init (by decide)
  have h2 : Reach ⟨⟨"x", .error, none, invalidUrlMsg⟩, []⟩ :=
    Reach.step (.submit none) h1 (by decide)
  exact (C1_amended h2).1 (by decide)

/-- C2: the claim is false: a network-level failure rejects with an `Error`
instance (the browser's `TypeError`, message "Failed to fetch"), so the code
stores that message, not the generic "Unknown error occurred" fallback. -/
theorem C2_counterexample :
    handleDownload ⟨"https://a", .idle, none, ""⟩ (some ⟨"https:"⟩)
        (.networkFailure (.error "Failed to fetch")) =
      (⟨"https://a", .error, none, "Failed to fetch"⟩, ["https://a"]) ∧
    "Failed to fetch" ≠ "Unknown error occurred" := by
  exact ⟨by decide, by decide⟩

/-- C2 (amended): on a network-level failure or a 2xx body-parse failure the
state transitions to `error`; the stored message is the thrown exception's
own message when the thrown value is an `Error` instance (which browser
`fetch`/JSON failures are), and the generic "Unknown error occurred" fallback
only when a non-`Error` value is thrown. -/
theorem C2_amended (st : AppState) (p : ParsedURL)
    (hne : ¬jsTrim st.url = "") (hp : p.protocol = "http:" ∨ p.protocol = "https:") :
    (∀ m, handleDownload st (some p) (.networkFailure (.error m)) =
      (⟨st.url, .error, none, m⟩, [jsTrim st.url])) ∧
    (handleDownload st (some p) (.networkFailure .other) =
      (⟨st.url, .error, none, "Unknown error occurred"⟩, [jsTrim st.url])) ∧
    (∀ code m, 200 ≤ code → code ≤ 299 →
      handleDownload st (some p) (.response code (.fail (.error m))) =
        (⟨st.url, .error, none, m⟩, [jsTrim st.url])) ∧
    (∀ code, 200 ≤ code → code ≤ 299 →
      handleDownload st (some p) (.response code (.fail .other)) =
        (⟨st.url, .error, none, "Unknown error occurred"⟩, [jsTrim st.url])) := by
  refine ⟨fun m => ?_, ?_, fun code m h1 h2 => ?_, fun code h1 h2 => ?_⟩ <;>
    rw [handleDownload_valid st p _ hne hp]
  · simp [resolveFetch, jsErrMessage]
  · simp [resolveFetch, jsErrMessage]
  · simp [resolveFetch, jsErrMessage, h1, h2]
  · simp [resolveFetch, jsErrMessage, h1, h2]

/-- C2 witness: the amended theorem at a concrete network failure. -/
theorem C2_amended_witness :
    handleDownload ⟨"https://b", .idle, none, ""⟩ (some ⟨"https:"⟩)
        (.networkFailure (.error "NetworkError when attempting to fetch resource.")) =
      (⟨"https://b", .error, none, "NetworkError when attempting to fetch resource."⟩,
        ["https://b"]) :=
  (C2_amended ⟨"https://b", .idle, none, ""⟩ ⟨"https:"⟩ (by decide) (Or.inr rfl)).1
    "NetworkError when attempting to fetch resource."

/-- C3: a submitted non-empty trimmed input that fails to parse transitions
to `error` with the generic invalid-URL message, and one that parses with a
scheme other than http/https transitions to `error` with the message naming
the rejected scheme; in both cases the request list is empty, so no fetch is
issued.  (`result` is left untouched by both paths.) -/
theorem C3_validation_guard (st : AppState) (o : FetchOutcome)
    (hne : ¬jsTrim st.url = "") :
    handleDownload st none o = (⟨st.url, .error, st.result, invalidUrlMsg⟩, []) ∧
    (∀ p : ParsedURL, p.protocol ≠ "http:" → p.protocol ≠ "https:" →
      handleDownload st (some p) o = (⟨st.url, .error, st.result, schemeMsg p.protocol⟩, [])) := by
  constructor
  · unfold handleDownload submitStart
    simp [hne]
  · intro p h1 h2
    unfold handleDownload submitStart
    simp [hne, h1, h2]

/-- C3 witness: the guard at the spec's `ftp://x` example. -/
theorem C3_validation_guard_witness :
    handleDownload ⟨"ftp://x", .idle, none, ""⟩ (some ⟨"ftp:"⟩) (.networkFailure .other) =
      (⟨"ftp://x", .error, none, schemeMsg "ftp:"⟩, []) :=
  (C3_validation_guard ⟨"ftp://x", .idle, none, ""⟩ (.networkFailure .other) (by decide)).2
    ⟨"ftp:"⟩ (by decide) (by decide)

/-- C4: the claim is false: submitting an input that is empty after trimming
returns early without touching `status`, so from an `error` state the
resulting status is `error`, not `idle`. -/
theorem C4_counterexample :
    handleDownload ⟨" ", .error, none, invalidUrlMsg⟩ none (.networkFailure .other) =
      (⟨" ", .error, none, invalidUrlMsg⟩, []) ∧
    AppStatus.error ≠ AppStatus.idle := by
  exact ⟨by decide, by decide⟩

/-- C4 (amended): submitting an input that is empty after trimming is a
complete no-op: the state is left exactly as it was (idle stays idle, error
stays error, success stays success), no message is surfaced, and no network
request is issued. -/
theorem C4_amended (st : AppState) (parse : Option ParsedURL) (o : FetchOutcome)
    (h : jsTrim st.url = "") :
    handleDownload st parse o = (st, []) := by
  unfold handleDownload submitStart
  simp [h]

/-- C4 witness: the amended theorem at a whitespace-only input from idle. -/
theorem C4_amended_witness :
    handleDownload ⟨"  ", .idle, none, ""⟩ none (.networkFailure .other) =
      (⟨"  ", .idle, none, ""⟩, []) :=
  C4_amended ⟨"  ", .idle, none, ""⟩ none (.networkFailure .other) (by decide)

/-- C5: platform detection evaluates the fixed ordered list top-to-bottom and
returns the first matching name (spelled out as the five-way cascade), every
string matched by the Generic catch-all (beginning with http:// or https://,
case-insensitively) receives some classification, and the empty input string
receives none, both from `detectPlatform` itself and through the chip signal
that guards on a non-empty `url`. -/
theorem C5_detect :
    (∀ u, detectPlatform u =
      (if youtubeTest u then some "YouTube"
       else if instagramTest u then some "Instagram"
       else if tiktokTest u then some "TikTok"
       else if facebookTest u then some "Facebook"
       else if genericTest u then some "Generic"
       else none)) ∧
    (∀ u, genericTest u = true → (detectPlatform u).isSome = true) ∧
    detectPlatform "" = none ∧
    (∀ st : AppState, st.url = "" → platformChip st = none) := by
  refine ⟨detect_chain, fun u hg => ?_, by decide, fun st h => ?_⟩
  · rw [detect_chain u]
    split_ifs <;> simp_all
  · simp [platformChip, h]

/-- C5 witness: a URL matching no specific platform is still classified, and
an empty input yields no chip. -/
theorem C5_detect_witness :
    (detectPlatform "https://example.org").isSome = true ∧
    platformChip ⟨"", .idle, none, ""⟩ = none :=
  ⟨C5_detect.2.1 "https://example.org" (by decide),
   C5_detect.2.2.2 ⟨"", .idle, none, ""⟩ rfl⟩

/-- C6: a validated http(s) submission answered with a 2xx status and a
JSON-parsing body passes through idle, loading, success; the parsed payload
is stored verbatim as the result; and the rendered link is the API base
concatenated with `download_url`, with `filename` as the suggested name. -/
theorem C6_success_flow (st : AppState) (p : ParsedURL) (code : Nat) (b : JsonBody)
    (hidle : st.status = .idle) (hne : ¬jsTrim st.url = "")
    (hp : p.protocol = "http:" ∨ p.protocol = "https:")
    (h1 : 200 ≤ code) (h2 : code ≤ 299) :
    submitTrace st (some p) (.response code (.ok b)) =
      [st, ⟨st.url, .loading, none, ""⟩, ⟨st.url, .success, some b, ""⟩] ∧
    (submitTrace st (some p) (.response code (.ok b))).map AppState.status =
      [.idle, .loading, .success] ∧
    (∀ apiBase d, b.download_url = some d → downloadHref apiBase b = apiBase ++ d) ∧
    (∀ f, b.filename = some f → downloadName b = f) := by
  have htr : submitTrace st (some p) (.response code (.ok b)) =
      [st, ⟨st.url, .loading, none, ""⟩, ⟨st.url, .success, some b, ""⟩] := by
    unfold submitTrace
    rw [submitStart_valid st p hne hp]
    simp [resolveFetch, h1, h2]
  refine ⟨htr, by rw [htr]; simp [hidle], fun apiBase d hd => ?_, fun f hf => ?_⟩
  · simp [downloadHref, jsStr, hd]
  · simp [downloadName, jsStr, hf]

/-- C6 witness: the spec's mocked scenario, with the default API base. -/
theorem C6_success_flow_witness :
    submitTrace ⟨"https://youtube.com/watch?v=abc", .idle, none, ""⟩ (some ⟨"https:"⟩)
        (.response 200 (.ok demoBody)) =
      [⟨"https://youtube.com/watch?v=abc", .idle, none, ""⟩,
       ⟨"https://youtube.com/watch?v=abc", .loading, none, ""⟩,
       ⟨"https://youtube.com/watch?v=abc", .success, some demoBody, ""⟩] ∧
    downloadHref "http://localhost:8000" demoBody = "http://localhost:8000/files/video.mp4" ∧
    downloadName demoBody = "video.mp4" :=
  ⟨(C6_success_flow ⟨"https://youtube.com/watch?v=abc", .idle, none, ""⟩ ⟨"https:"⟩ 200 demoBody
      rfl (by decide) (Or.inr rfl) (by decide) (by decide)).1,
   (C6_success_flow ⟨"https://youtube.com/watch?v=abc", .idle, none, ""⟩ ⟨"https:"⟩ 200 demoBody
      rfl (by decide) (Or.inr rfl) (by decide) (by decide)).2.2.1 "http://localhost:8000"
      "/files/video.mp4" rfl,
   (C6_success_flow ⟨"https://youtube.com/watch?v=abc", .idle, none, ""⟩ ⟨"https:"⟩ 200 demoBody
      rfl (by decide) (Or.inr rfl) (by decide) (by decide)).2.2.2 "video.mp4" rfl⟩

/-- C7: a validated submission answered with a non-2xx status transitions to
`error`; when the body parses as JSON with a `detail` field the stored
message is exactly that detail, and otherwise (no `detail`, or an
unparseable body) it is exactly "Server error {status}". -/
theorem C7_server_error (st : AppState) (p : ParsedURL) (code : Nat)
    (hne : ¬jsTrim st.url = "") (hp : p.protocol = "http:" ∨ p.protocol = "https:")
    (hcode : ¬(200 ≤ code ∧ code ≤ 299)) :
    (∀ b : JsonBody, ∀ d, b.detail = some d →
      handleDownload st (some p) (.response code (.ok b)) =
        (⟨st.url, .error, none, d⟩, [jsTrim st.url])) ∧
    (∀ b : JsonBody, b.detail = none →
      handleDownload st (some p) (.response code (.ok b)) =
        (⟨st.url, .error, none, serverErrorMsg code⟩, [jsTrim st.url])) ∧
    (∀ err, handleDownload st (some p) (.response code (.fail err)) =
      (⟨st.url, .error, none, serverErrorMsg code⟩, [jsTrim st.url])) := by
  refine ⟨fun b d hd => ?_, fun b hd => ?_, fun err => ?_⟩ <;>
    rw [handleDownload_valid st p _ hne hp]
  · simp [resolveFetch, hcode, hd]
  · simp [resolveFetch, hcode, hd]
  · simp [resolveFetch, hcode]

/-- C7 witness: the spec's 422-with-detail and 500-unparseable scenarios. -/
theorem C7_server_error_witness :
    handleDownload ⟨"https://a", .idle, none, ""⟩ (some ⟨"https:"⟩)
        (.response 422 (.ok ⟨none, none, none, none, some "unsupported URL"⟩)) =
      (⟨"https://a", .error, none, "unsupported URL"⟩, ["https://a"]) ∧
    handleDownload ⟨"https://a", .idle, none, ""⟩ (some ⟨"https:"⟩)
        (.response 500 (.fail (.error "Unexpected token"))) =
      (⟨"https://a", .error, none, "Server error 500"⟩, ["https://a"]) :=
  ⟨(C7_server_error ⟨"https://a", .idle, none, ""⟩ ⟨"https:"⟩ 422 (by decide) (Or.inr rfl)
      (by decide)).1 ⟨none, none, none, none, some "unsupported URL"⟩ "unsupported URL" rfl,
   (C7_server_error ⟨"https://a", .idle, none, ""⟩ ⟨"https:"⟩ 500 (by decide) (Or.inr rfl)
      (by decide)).2.2 (.error "Unexpected token")⟩

/-- C8: in every reachable configuration at most one request is in flight,
and while `status = loading` any submit event is rejected (the disabled
control yields no step), so no second request can be issued; moreover a
`loading` configuration has exactly the one request pending. -/
theorem C8_single_flight {c : Config} (h : Reach c) :
    c.pending.length ≤ 1 ∧
    (c.state.status = .loading →
      (∀ parse, stepFn c (.submit parse) = none) ∧ c.pending.length = 1) := by
  obtain ⟨h1, -, -⟩ := reach_inv h
  constructor
  · rw [h1]
    split <;> simp
  · intro hl
    exact ⟨fun parse => by simp [stepFn, hl], by simp [h1, hl]⟩

/-- C8 witness: a concrete reachable loading configuration rejects a second
submit. -/
theorem C8_single_flight_witness :
    stepFn ⟨⟨"https://a", .loading, none, ""⟩, ["https://a"]⟩
      (.submit (some ⟨"https:"⟩)) = none := by
  have h1 : Reach ⟨⟨"https://a", .idle, none, ""⟩, []⟩ :=
    Reach.step (.input "https://a") Reach.init (by decide)
  have h2 : Reach ⟨⟨"https://a", .loading, none, ""⟩, ["https://a"]⟩ :=
    Reach.step (.submit (some ⟨"https:"⟩)) h1 (by decide)
  exact ((C8_single_flight h2).2 rfl).1 (some ⟨"https:"⟩)

/-- C9: invoking reset from a success or error state returns the session to
`idle` with `url` emptied, `result` cleared, and `errorMessage` cleared. -/
theorem C9_reset (st : AppState) (h : st.status = .success ∨ st.status = .error) :
    reset st = ⟨"", .idle, none, ""⟩ := rfl

/-- C9 witness: reset applied to a concrete error state. -/
theorem C9_reset_witness :
    reset ⟨"https://a", .error, none, "boom"⟩ = ⟨"", .idle, none, ""⟩ :=
  C9_reset ⟨"https://a", .error, none, "boom"⟩ (Or.inr rfl)

/-- C10: the claim is false as universally stated: matching is first-match
in list order, so a string containing "instagram.com" that also contains
"youtube.com" is classified YouTube, not Instagram. -/
theorem C10_counterexample :
    containsCI "youtube.com/instagram.com" "instagram.com" = true ∧
    detectPlatform "youtube.com/instagram.com" = some "YouTube" ∧
    ¬detectPlatform "youtube.com/instagram.com" = some "Instagram" := by
  exact ⟨by decide, by decide, by decide⟩

/-- C10 (amended): platform detection is case-insensitive substring matching
that requires neither a parseable URL nor an http(s) scheme: a string
containing a platform's signature anywhere, in any letter case, is classified
as that platform provided no earlier entry of the fixed order (YouTube,
Instagram, TikTok, Facebook) also matches. -/
theorem C10_amended (s : String) :
    (containsCI s "youtube.com" = true ∨ containsCI s "youtu.be" = true →
      detectPlatform s = some "YouTube") ∧
    (containsCI s "instagram.com" = true → youtubeTest s = false →
      detectPlatform s = some "Instagram") ∧
    (containsCI s "tiktok.com" = true → youtubeTest s = false → instagramTest s = false →
      detectPlatform s = some "TikTok") ∧
    (containsCI s "facebook.com" = true ∨ containsCI s "fb.watch" = true →
      youtubeTest s = false → instagramTest s = false → tiktokTest s = false →
      detectPlatform s = some "Facebook") := by
  have hc := detect_chain s
  refine ⟨?_, ?_, ?_, ?_⟩
  · rintro (h | h) <;> rw [hc] <;> simp [youtubeTest, h]
  · intro h h0
    rw [hc]
    simp [instagramTest, h, h0]
  · intro h h0 h1
    rw [hc]
    simp [tiktokTest, h, h0, h1]
  · rintro (h | h) h0 h1 h2 <;> rw [hc] <;> simp [facebookTest, h, h0, h1, h2]

/-- C10 witness: an upper-case, non-URL string containing exactly one
signature receives that platform's classification. -/
theorem C10_amended_witness :
    detectPlatform "SEE TIKTOK.COM CLIP" = some "TikTok" :=
  (C10_amended "SEE TIKTOK.COM CLIP").2.2.1 (by decide) (by decide) (by decide)

end MediaDL
